import Mathlib

/-!
Verification of the cryptographic envelope layer of the e2ee-chat-app
repository.

The development shallowly embeds the TypeScript source:

* `src/lib/crypto/symmetric.ts` — the Base64 codec is embedded concretely
  over byte lists (`arrayBufferToBase64`, `base64ToArrayBuffer`); the
  WebCrypto AES-GCM primitive is embedded symbolically (`aesGcmEncrypt`,
  `aesGcmDecrypt` over the term algebra `Buf`), which is the standard
  idealisation of an AEAD: decryption succeeds exactly on a ciphertext
  produced with the same key and IV.
* `src/lib/crypto/keys.ts` — `deriveKEK_ECDH` (ECDH shared secret fed
  through HKDF-SHA256 with salt and context string).
* `src/lib/crypto/wrap.ts` — `wrapAesKeyWithECDH`, `unwrapAesKeyWithECDH`,
  `wrapAesKeyWithRSA`, `unwrapAesKeyWithRSA`.
* `src/lib/crypto/backup.ts` — `deriveKeyFromPassphrase`,
  `exportKeysSealed`, `importKeysSealed`.
* `src/pages/Chat.tsx` — the envelope-building core of `sendMessage`
  (text-message path and the file-upload inline-fallback policy) and
  `decryptMessage`.
* `src/pages/Analytics.tsx` — the hash-verification step of
  `loadMessageAnalytics`.

Randomness (fresh keys, IVs, salts) is passed in as explicit parameters;
fallible WebCrypto calls are embedded as `Option`/`Except`.
-/

/-! ## Concrete Base64 codec (symmetric.ts lines 77-96)

`arrayBufferToBase64` builds a binary string from the bytes and applies
the platform `btoa`; `base64ToArrayBuffer` applies `atob` and reads the
char codes back.  `btoa`/`atob` are the standard Base64 codec with
alphabet A-Z a-z 0-9 + / and padding =, so the composite maps each
3-byte group to 4 alphabet characters.  We embed the composite directly
over byte lists (`List Nat`, each element < 256). -/

/-- Base64 alphabet: maps a 6-bit value (0..63) to its ASCII code. -/
def b64EncChar (n : Nat) : Nat :=
  if n < 26 then 65 + n
  else if n < 52 then 71 + n
  else if n < 62 then n - 4
  else if n = 62 then 43
  else 47

/-- Inverse of the Base64 alphabet: ASCII code back to the 6-bit value. -/
def b64DecChar (c : Nat) : Nat :=
  if 65 ≤ c ∧ c ≤ 90 then c - 65
  else if 97 ≤ c ∧ c ≤ 122 then c - 71
  else if 48 ≤ c ∧ c ≤ 57 then c + 4
  else if c = 43 then 62
  else 63

/-- Embedding of `arrayBufferToBase64` (symmetric.ts 77-84) composed with
`btoa`: encode a byte list to the list of ASCII codes of its Base64
encoding, processing three bytes into four characters, with `=` (code 61)
padding for a final group of one or two bytes. -/
def arrayBufferToBase64 : List Nat → List Nat
  | [] => []
  | [a] => [b64EncChar (a / 4), b64EncChar (a % 4 * 16), 61, 61]
  | [a, b] => [b64EncChar (a / 4), b64EncChar (a % 4 * 16 + b / 16),
               b64EncChar (b % 16 * 4), 61]
  | a :: b :: c :: rest =>
      b64EncChar (a / 4) :: b64EncChar (a % 4 * 16 + b / 16) ::
      b64EncChar (b % 16 * 4 + c / 64) :: b64EncChar (c % 64) ::
      arrayBufferToBase64 rest

/-- Embedding of `base64ToArrayBuffer` (symmetric.ts 89-96) built on
`atob`: decode four Base64 characters back into three bytes, honouring
`=` padding in the final group. -/
def base64ToArrayBuffer : List Nat → List Nat
  | c0 :: c1 :: c2 :: c3 :: rest =>
      let x0 := b64DecChar c0
      let x1 := b64DecChar c1
      if c2 = 61 then [x0 * 4 + x1 / 16]
      else
        let x2 := b64DecChar c2
        if c3 = 61 then [x0 * 4 + x1 / 16, x1 % 16 * 16 + x2 / 4]
        else (x0 * 4 + x1 / 16) :: (x1 % 16 * 16 + x2 / 4) ::
             (x2 % 4 * 64 + b64DecChar c3) :: base64ToArrayBuffer rest
  | _ => []

/-! ## Symbolic crypto universe

Keys, buffers, hashes.  WebCrypto primitives not part of the repository
(AES-GCM, ECDH, HKDF, PBKDF2, RSA-OAEP, SHA-256) are idealised as
injective term constructors; the repository's own functions are
translated on top of them line by line. -/

/-- Serialized private-key bundle of a backup (backup.ts `BackupData`):
the two private JWKs, held opaquely. -/
structure BackupData where
  ecdhPrivateJwk : Nat
  rsaPrivateJwk : Nat
deriving DecidableEq

/-- ECDH shared secret of the two P-256 scalars `a` and `b`: `g^(a*b)`
depends only on the unordered pair, modelled as (min, max). -/
def ecdhSharedSecret (a b : Nat) : Nat × Nat := (min a b, max a b)

/-- Symmetric AES-GCM-256 keys, by provenance: freshly generated
(`genAesGcmKey`), derived by HKDF-SHA256 from an ECDH shared secret with
a salt and a context string (`deriveKEK_ECDH`), or derived by
PBKDF2-HMAC-SHA256 from a passphrase, salt and iteration count
(`deriveKeyFromPassphrase`). -/
inductive SymKey where
  | fresh : Nat → SymKey
  | hkdf : Nat × Nat → List Nat → String → SymKey
  | pbkdf2 : String → List Nat → Nat → SymKey
deriving DecidableEq

/-- Symbolic byte buffers: concrete bytes, the raw export of a symmetric
key, an AES-GCM ciphertext (key, IV, plaintext), an RSA-OAEP
encapsulation under a public key, or the JSON serialization of a backup
bundle. -/
inductive Buf where
  | bytes : List Nat → Buf
  | keyBytes : SymKey → Buf
  | aesCt : SymKey → List Nat → Buf → Buf
  | rsaCt : Nat → Buf → Buf
  | jsonBackup : BackupData → Buf
deriving DecidableEq

/-- Base64-encoded strings of symbolic buffers: the symbolic counterpart
of `arrayBufferToBase64`, justified as a bijective codec by the concrete
round-trip theorem below. -/
inductive B64 where
  | enc : Buf → B64
deriving DecidableEq

/-- Hex digest strings: SHA-256 of a Base64 string (`sha256Hex` applied
to a string input, hash.ts 8-13). -/
inductive Hex where
  | sha256 : B64 → Hex
deriving DecidableEq

/-- Symbolic counterpart of `base64ToArrayBuffer`. -/
def b64decode : B64 → Buf
  | .enc b => b

/-- View a symbolic buffer as its byte list (`new Uint8Array(buffer)`);
only ever applied to `.bytes` buffers in the protocol. -/
def asBytes : Buf → List Nat
  | .bytes l => l
  | _ => []

/-- Embedding of `aesGcmEncrypt` (symmetric.ts 27-40). -/
def aesGcmEncrypt (key : SymKey) (iv : List Nat) (data : Buf) : Buf :=
  .aesCt key iv data

/-- Embedding of `aesGcmDecrypt` (symmetric.ts 45-58): succeeds exactly
on a ciphertext formed under the same key and IV (AEAD tag check);
`none` models the thrown `OperationError`. -/
def aesGcmDecrypt (key : SymKey) (iv : List Nat) (ciphertext : Buf) : Option Buf :=
  match ciphertext with
  | .aesCt k i p => if k = key ∧ i = iv then some p else none
  | _ => none

/-- An ECDH public key as handed to `importECDHPublicJwk`: either the
valid public point of the scalar `d`, or malformed material on which
import/derivation throws. -/
inductive EcPubKey where
  | valid : Nat → EcPubKey
  | malformed : Nat → EcPubKey
deriving DecidableEq

/-- Embedding of `deriveKEK_ECDH` (keys.ts 139-179): ECDH shared secret
between the caller's private scalar and the counterparty's public key,
fed through HKDF-SHA256 with the given salt and context string.  `none`
models the exception thrown on malformed key material. -/
def deriveKEK_ECDH (senderPriv : Nat) (recipientPub : EcPubKey)
    (salt : List Nat) (info : String) : Option SymKey :=
  match recipientPub with
  | .valid d => some (.hkdf (ecdhSharedSecret senderPriv d) salt info)
  | .malformed _ => none

/-- Embedding of `wrapAesKeyWithECDH` (wrap.ts 10-27): derive the KEK
with context string "wrap", then AES-GCM-encrypt the raw key bytes using
the first 12 bytes of the salt as IV. -/
def wrapAesKeyWithECDH (aesKey : SymKey) (senderPrivECDH : Nat)
    (recipientPubECDH : EcPubKey) (salt : List Nat) : Option Buf :=
  (deriveKEK_ECDH senderPrivECDH recipientPubECDH salt "wrap").map fun kek =>
    aesGcmEncrypt kek (salt.take 12) (.keyBytes aesKey)

/-- Embedding of `unwrapAesKeyWithECDH` (wrap.ts 32-57): derive the same
KEK (roles swapped), AES-GCM-decrypt with the first 12 bytes of the salt
as IV, and import the resulting raw bytes as an AES key. -/
def unwrapAesKeyWithECDH (wrappedKey : Buf) (recipientPrivECDH : Nat)
    (senderPubECDH : EcPubKey) (salt : List Nat) : Option SymKey :=
  match deriveKEK_ECDH recipientPrivECDH senderPubECDH salt "wrap" with
  | none => none
  | some kek =>
      match aesGcmDecrypt kek (salt.take 12) wrappedKey with
      | some (.keyBytes k) => some k
      | _ => none

/-- Embedding of `wrapAesKeyWithRSA` (wrap.ts 62-69): direct RSA-OAEP
encapsulation of the raw key bytes under the recipient's public key. -/
def wrapAesKeyWithRSA (aesKey : SymKey) (recipientRsaPub : Nat) : Buf :=
  .rsaCt recipientRsaPub (.keyBytes aesKey)

/-- Embedding of `unwrapAesKeyWithRSA` (wrap.ts 74-87): RSA-OAEP
decapsulation with the matching private key; `none` models the thrown
`OperationError` on a mismatched key or malformed blob. -/
def unwrapAesKeyWithRSA (wrappedKey : Buf) (recipientRsaPriv : Nat) : Option SymKey :=
  match wrappedKey with
  | .rsaCt pub (.keyBytes k) => if pub = recipientRsaPriv then some k else none
  | _ => none

/-! ## Envelope codec (Chat.tsx `sendMessage` / `decryptMessage`) -/

/-- A user's resident private keys (`useCryptoKeys` key cache): the ECDH
P-256 private scalar and the RSA-OAEP-4096 private key. -/
structure Identity where
  ecdhPriv : Nat
  rsaPriv : Nat
deriving DecidableEq

/-- The peer's `user_keys` row as loaded by `loadRecipientAndChat`: the
two public keys. -/
structure RecipientKeys where
  ecdhPub : EcPubKey
  rsaPub : Nat
deriving DecidableEq

/-- A `messages` row as inserted by `sendMessage` (Chat.tsx 629-641),
text-message fields. -/
structure MessageRow where
  sender_id : Nat
  recipient_id : Nat
  ciphertext_base64 : B64
  iv_base64 : B64
  wrapped_key_base64 : B64
  wrap_alg : String
  salt_base64 : B64
  hash_hex : Hex
deriving DecidableEq

/-- Embedding of the envelope-building core of `sendMessage` (Chat.tsx
607-641, text-message path): generate a fresh AES key, IV and salt
(passed in as parameters), AES-GCM-encrypt the plaintext, wrap the AES
key preferring ECDH with RSA-OAEP fallback, hash the Base64 ciphertext,
and assemble the row. -/
def sendMessageCore (userId recipientId : Nat) (keys : Identity)
    (recipientEcdhPub : EcPubKey) (recipientRsaPub : Nat)
    (plaintext : Buf) (aesKey : SymKey) (iv salt : List Nat) : MessageRow :=
  let ciphertext := aesGcmEncrypt aesKey iv plaintext
  let wrapped : Buf × String :=
    match wrapAesKeyWithECDH aesKey keys.ecdhPriv recipientEcdhPub salt with
    | some w => (w, "ECDH")
    | none => (wrapAesKeyWithRSA aesKey recipientRsaPub, "RSA-OAEP")
  let hash := Hex.sha256 (B64.enc ciphertext)
  { sender_id := userId
    recipient_id := recipientId
    ciphertext_base64 := B64.enc ciphertext
    iv_base64 := B64.enc (.bytes iv)
    wrapped_key_base64 := B64.enc wrapped.1
    wrap_alg := wrapped.2
    salt_base64 := B64.enc (.bytes salt)
    hash_hex := hash }

/-- Embedding of `decryptMessage` (Chat.tsx 268-311 and 427, text-message
path): decode the fields, unwrap the AES key — dispatching on the
envelope's `wrap_alg` tag, with the sender-side/receiver-side branches on
`sender_id` and the `user_keys` directory lookup (`userKeysDb`) for a
sender that is not the open chat's peer — then AES-GCM-decrypt.  `none`
models a thrown error. -/
def decryptMessage (userId recipientId : Nat) (keys : Identity)
    (recipient : RecipientKeys) (userKeysDb : Nat → Option EcPubKey)
    (msg : MessageRow) : Option Buf :=
  let iv := asBytes (b64decode msg.iv_base64)
  let salt := asBytes (b64decode msg.salt_base64)
  let ciphertext := b64decode msg.ciphertext_base64
  let wrappedKey := b64decode msg.wrapped_key_base64
  let aesKey? : Option SymKey :=
    if msg.wrap_alg = "ECDH" then
      if msg.sender_id = userId then
        unwrapAesKeyWithECDH wrappedKey keys.ecdhPriv recipient.ecdhPub salt
      else
        let senderEcdhPub? : Option EcPubKey :=
          if msg.sender_id = recipientId then some recipient.ecdhPub
          else userKeysDb msg.sender_id
        senderEcdhPub?.bind fun pub =>
          unwrapAesKeyWithECDH wrappedKey keys.ecdhPriv pub salt
    else
      unwrapAesKeyWithRSA wrappedKey keys.rsaPriv
  aesKey?.bind fun aesKey => aesGcmDecrypt aesKey iv ciphertext

/-! ## Analytics hash verification (Analytics.tsx `loadMessageAnalytics`) -/

/-- Embedding of the hash-verification step (Analytics.tsx 300-302):
recompute `sha256Hex(msg.ciphertext_base64)` and compare with the stored
`hash_hex`. -/
def verifyHashAnalytics (msg : MessageRow) : Bool :=
  Hex.sha256 msg.ciphertext_base64 == msg.hash_hex

/-- Embedding of the per-message decryption attempt of
`loadMessageAnalytics` (Analytics.tsx 304-337): unwrap by the tag when an
ECDH peer key is available, else RSA, then AES-GCM-decrypt. -/
def analyticsDecrypt (keys : Identity) (otherPartyEcdhPub : Option EcPubKey)
    (msg : MessageRow) : Option Buf :=
  let iv := asBytes (b64decode msg.iv_base64)
  let salt := asBytes (b64decode msg.salt_base64)
  let ciphertext := b64decode msg.ciphertext_base64
  let wrappedKey := b64decode msg.wrapped_key_base64
  let aesKey? : Option SymKey :=
    if msg.wrap_alg = "ECDH" then
      match otherPartyEcdhPub with
      | some pub => unwrapAesKeyWithECDH wrappedKey keys.ecdhPriv pub salt
      | none => unwrapAesKeyWithRSA wrappedKey keys.rsaPriv
    else
      unwrapAesKeyWithRSA wrappedKey keys.rsaPriv
  aesKey?.bind fun aesKey => aesGcmDecrypt aesKey iv ciphertext

/-- Embedding of one full `loadMessageAnalytics` entry (Analytics.tsx
290-337): the hash-verification outcome and the decryption outcome,
computed independently of each other. -/
def loadMessageAnalyticsEntry (keys : Identity)
    (otherPartyEcdhPub : Option EcPubKey) (msg : MessageRow) :
    Bool × Option Buf :=
  (verifyHashAnalytics msg, analyticsDecrypt keys otherPartyEcdhPub msg)

/-! ## File-storage fallback policy (Chat.tsx `sendMessage`, 498-593) -/

/-- Where the encrypted file payload ends up. -/
inductive FileStorage where
  | storage
  | inlineMeta
deriving DecidableEq

/-- The two throw sites of the upload-fallback chain. -/
inductive SendErr where
  | fileTooLargeForInline
  | fileUploadFailed
deriving DecidableEq

/-- Embedding of the storage / inline-fallback decision of `sendMessage`
(Chat.tsx 498-593): `uploadFailed` is the initial upload outcome;
`bucketMissing`, `createOk`, `retryOk`, `retryRls` describe the
create-bucket-and-retry sequence taken when the bucket was missing.  The
payload is inlined into `file_meta` exactly when the upload failed and
`encryptedBase64.length < 5 * 1024 * 1024` (line 517; also 557, 569,
582); otherwise the retry may still store it, or the send throws (lines
566, 591). -/
def resolveFileStorage (uploadFailed bucketMissing createOk retryOk retryRls : Bool)
    (encryptedBase64Len : Nat) : Except SendErr FileStorage :=
  if !uploadFailed then .ok .storage
  else if encryptedBase64Len < 5 * 1024 * 1024 then .ok .inlineMeta
  else if bucketMissing && createOk && retryOk then .ok .storage
  else if bucketMissing && createOk && retryRls then .error .fileTooLargeForInline
  else .error .fileUploadFailed

/-! ## Backup sealer (backup.ts) -/

/-- The opaque restore failure of `importKeysSealed` (backup.ts 102): a
single error value, whatever the cause. -/
inductive BackupError where
  | backupRestoreError
deriving DecidableEq

/-- A sealed backup as written by `exportKeysSealed` (backup.ts 68-72). -/
structure SealedBackup where
  ciphertext : B64
  iv : B64
  salt : B64
deriving DecidableEq

/-- Embedding of `deriveKeyFromPassphrase` (backup.ts 22-46):
PBKDF2-HMAC-SHA256 over the passphrase with the given salt and 200000
iterations. -/
def deriveKeyFromPassphrase (passphrase : String) (salt : List Nat) : SymKey :=
  .pbkdf2 passphrase salt 200000

/-- Embedding of `exportKeysSealed` (backup.ts 51-79): derive the key
from the passphrase and a fresh salt, AES-GCM-encrypt the serialized
bundle under a fresh IV, and store ciphertext, IV and salt
Base64-encoded. -/
def exportKeysSealed (ecdhPrivateJwk rsaPrivateJwk : Nat)
    (passphrase : String) (salt iv : List Nat) : SealedBackup :=
  let key := deriveKeyFromPassphrase passphrase salt
  let plaintext := Buf.jsonBackup ⟨ecdhPrivateJwk, rsaPrivateJwk⟩
  let ciphertext := aesGcmEncrypt key iv plaintext
  { ciphertext := B64.enc ciphertext
    iv := B64.enc (.bytes iv)
    salt := B64.enc (.bytes salt) }

/-- Embedding of `importKeysSealed` (backup.ts 84-104): decode the stored
fields, re-derive the key from the stored salt and the supplied
passphrase, AES-GCM-decrypt and parse; any decryption or parse failure is
caught and surfaced as the one opaque `BackupError`. -/
def importKeysSealed (sealed : SealedBackup) (passphrase : String) :
    Except BackupError BackupData :=
  let salt := asBytes (b64decode sealed.salt)
  let iv := asBytes (b64decode sealed.iv)
  let ciphertext := b64decode sealed.ciphertext
  let key := deriveKeyFromPassphrase passphrase salt
  match aesGcmDecrypt key iv ciphertext with
  | some (.jsonBackup backupData) => .ok backupData
  | some _ => .error .backupRestoreError
  | none => .error .backupRestoreError

/-! ## Supporting lemmas -/

theorem b64DecEnc : ∀ n < 64, b64DecChar (b64EncChar n) = n := by decide

theorem b64EncChar_ne_61 : ∀ n < 64, b64EncChar n ≠ 61 := by decide

theorem base64_roundtrip_aux (b : List Nat) (h : ∀ x ∈ b, x < 256) :
    base64ToArrayBuffer (arrayBufferToBase64 b) = b := by
  induction b using arrayBufferToBase64.induct with
  | case1 => rfl
  | case2 a =>
    have ha : a < 256 := h a (by simp)
    simp only [arrayBufferToBase64, base64ToArrayBuffer, if_true, reduceIte]
    rw [b64DecEnc _ (by omega), b64DecEnc _ (by omega)]
    simp only [List.cons.injEq, and_true]
    omega
  | case3 a c =>
    have ha : a < 256 := h a (by simp)
    have hc : c < 256 := h c (by simp)
    simp only [arrayBufferToBase64, base64ToArrayBuffer, if_true, reduceIte]
    rw [if_neg (b64EncChar_ne_61 _ (by omega))]
    rw [b64DecEnc _ (by omega), b64DecEnc _ (by omega), b64DecEnc _ (by omega)]
    simp only [List.cons.injEq, and_true]
    omega
  | case4 a c d rest ih =>
    have ha : a < 256 := h a (by simp)
    have hc : c < 256 := h c (by simp)
    have hd : d < 256 := h d (by simp)
    have hrest : ∀ x ∈ rest, x < 256 := fun x hx => h x (by simp [hx])
    simp only [arrayBufferToBase64, base64ToArrayBuffer]
    rw [if_neg (b64EncChar_ne_61 _ (by omega)), if_neg (b64EncChar_ne_61 _ (by omega))]
    rw [b64DecEnc _ (by omega), b64DecEnc _ (by omega), b64DecEnc _ (by omega),
        b64DecEnc _ (by omega)]
    rw [ih hrest]
    simp only [List.cons.injEq, and_true]
    omega

theorem arrayBufferToBase64_length (b : List Nat) :
    (arrayBufferToBase64 b).length = 4 * ((b.length + 2) / 3) := by
  induction b using arrayBufferToBase64.induct with
  | case1 => rfl
  | case2 a => simp [arrayBufferToBase64]
  | case3 a c => simp [arrayBufferToBase64]
  | case4 a c d rest ih =>
    simp only [arrayBufferToBase64, List.length_cons, ih]
    omega

theorem aesCt_ne_inner (k : SymKey) (iv : List Nat) (pt : Buf) :
    Buf.aesCt k iv pt ≠ pt := by
  intro h
  have hs := congrArg sizeOf h
  simp at hs

theorem aesGcmDecrypt_eq_none (key : SymKey) (iv : List Nat) (ct : Buf)
    (h : ∀ pt, ct ≠ Buf.aesCt key iv pt) : aesGcmDecrypt key iv ct = none := by
  cases ct with
  | aesCt k i p =>
    simp only [aesGcmDecrypt, ite_eq_right_iff]
    rintro ⟨rfl, rfl⟩
    exact absurd rfl (h p)
  | bytes l => rfl
  | keyBytes k => rfl
  | rsaCt n b => rfl
  | jsonBackup d => rfl

/-! ## Claim theorems -/

/-- C10: the primitive-layer binary/text codec is a round-trip — for every
byte buffer `b`, `base64ToArrayBuffer (arrayBufferToBase64 b)` returns a
buffer with exactly the same length and bytes as `b`. -/
theorem base64_codec_roundtrip (b : List Nat) (h : ∀ x ∈ b, x < 256) :
    base64ToArrayBuffer (arrayBufferToBase64 b) = b ∧
    (base64ToArrayBuffer (arrayBufferToBase64 b)).length = b.length := by
  have := base64_roundtrip_aux b h
  exact ⟨this, by rw [this]⟩

theorem base64_codec_roundtrip_witness :
    base64ToArrayBuffer (arrayBufferToBase64 [0, 77, 128, 255, 10]) = [0, 77, 128, 255, 10] ∧
    (base64ToArrayBuffer (arrayBufferToBase64 [0, 77, 128, 255, 10])).length = 5 :=
  base64_codec_roundtrip [0, 77, 128, 255, 10] (by decide)

/-- C1: round-trip of the envelope codec — for every plaintext byte string
`P` and valid sender/recipient identities, opening the envelope that the
seal core of `sendMessage` produces for `P` with the recipient's private
keys and the sender's public keys returns exactly `P`. -/
theorem seal_open_roundtrip (P : List Nat) (sender receiver : Identity)
    (senderId receiverId : Nat) (aesKey : SymKey) (iv salt : List Nat)
    (db : Nat → Option EcPubKey) (hne : senderId ≠ receiverId) :
    decryptMessage receiverId senderId receiver
      ⟨.valid sender.ecdhPriv, sender.rsaPriv⟩ db
      (sendMessageCore senderId receiverId sender
        (.valid receiver.ecdhPriv) receiver.rsaPriv (.bytes P) aesKey iv salt)
      = some (.bytes P) := by
  simp [decryptMessage, sendMessageCore, wrapAesKeyWithECDH, unwrapAesKeyWithECDH,
    deriveKEK_ECDH, ecdhSharedSecret, aesGcmEncrypt, aesGcmDecrypt, b64decode, asBytes,
    hne, Nat.min_comm, Nat.max_comm]

theorem seal_open_roundtrip_witness :
    decryptMessage 2 1 ⟨20, 21⟩ ⟨.valid 10, 11⟩ (fun _ => none)
      (sendMessageCore 1 2 ⟨10, 11⟩ (.valid 20) 21 (.bytes [1, 2, 3]) (.fresh 0)
        (List.replicate 12 0) (List.replicate 16 0)) = some (.bytes [1, 2, 3]) :=
  seal_open_roundtrip [1, 2, 3] ⟨10, 11⟩ ⟨20, 21⟩ 1 2 (.fresh 0)
    (List.replicate 12 0) (List.replicate 16 0) (fun _ => none) (by decide)

/-- C2 (counterexample): an envelope whose stored `hash_hex` does not match
the SHA-256 of its Base64 ciphertext is nevertheless decrypted successfully
by `decryptMessage`, with no integrity error of any kind — `decryptMessage`
never recomputes or compares the integrity hash. -/
theorem open_hash_mismatch_counterexample :
    verifyHashAnalytics
      { sendMessageCore 1 2 ⟨10, 11⟩ (.valid 20) 21 (.bytes [7]) (.fresh 0)
          (List.replicate 12 0) (List.replicate 16 0) with
        hash_hex := Hex.sha256 (B64.enc (.bytes [9])) } = false ∧
    decryptMessage 2 1 ⟨20, 21⟩ ⟨.valid 10, 11⟩ (fun _ => none)
      { sendMessageCore 1 2 ⟨10, 11⟩ (.valid 20) 21 (.bytes [7]) (.fresh 0)
          (List.replicate 12 0) (List.replicate 16 0) with
        hash_hex := Hex.sha256 (B64.enc (.bytes [9])) } = some (.bytes [7]) := by
  constructor
  · rfl
  · rfl

/-- C2 (amended): `decryptMessage` does not read the stored integrity hash
at all — its outcome is invariant under replacing `hash_hex` — and the
recompute-and-compare happens only in the Analytics page's
`loadMessageAnalytics`, where the hash verdict and the decryption outcome
are computed independently: the decryption component is likewise invariant
under replacing `hash_hex`, and the hash verdict is exactly
`verifyHashAnalytics`. -/
theorem open_ignores_integrity_hash (userId recipientId : Nat) (keys : Identity)
    (recipient : RecipientKeys) (db : Nat → Option EcPubKey)
    (otherPub : Option EcPubKey) (msg : MessageRow) (h' : Hex) :
    decryptMessage userId recipientId keys recipient db { msg with hash_hex := h' } =
      decryptMessage userId recipientId keys recipient db msg ∧
    (loadMessageAnalyticsEntry keys otherPub { msg with hash_hex := h' }).2 =
      (loadMessageAnalyticsEntry keys otherPub msg).2 ∧
    (loadMessageAnalyticsEntry keys otherPub msg).1 = verifyHashAnalytics msg := by
  exact ⟨rfl, rfl, rfl⟩

/-- C4: agreement-path wrap construction — `wrapAesKeyWithECDH` equals
AES-GCM encryption of the raw message-key bytes under the KEK obtained by
feeding the ECDH shared secret through HKDF-SHA256 with the salt and the
fixed context string "wrap", using the first 12 bytes of the salt as the
GCM nonce; and `unwrapAesKeyWithECDH` with the key roles swapped and the
same salt inverts it, recovering the message key. -/
theorem ecdh_wrap_construction (aesKey : SymKey) (senderPriv recipientPriv : Nat)
    (salt : List Nat) :
    wrapAesKeyWithECDH aesKey senderPriv (.valid recipientPriv) salt =
      some (aesGcmEncrypt
        (SymKey.hkdf (ecdhSharedSecret senderPriv recipientPriv) salt "wrap")
        (salt.take 12) (.keyBytes aesKey)) ∧
    (wrapAesKeyWithECDH aesKey senderPriv (.valid recipientPriv) salt).bind
      (fun w => unwrapAesKeyWithECDH w recipientPriv (.valid senderPriv) salt) =
      some aesKey := by
  constructor
  · rfl
  · simp [wrapAesKeyWithECDH, unwrapAesKeyWithECDH, deriveKEK_ECDH, ecdhSharedSecret,
      aesGcmEncrypt, aesGcmDecrypt, Nat.min_comm, Nat.max_comm]

/-- C5: for every envelope produced by the seal core of `sendMessage`, the
stored integrity hash equals the SHA-256 hex digest of the Base64-encoded
ciphertext — exactly the stored `ciphertext_base64` field, so any holder
can recompute it from the stored fields alone (as Analytics does) — and
not of the plaintext. -/
theorem integrity_hash_over_encoded_ciphertext (userId recipientId : Nat)
    (keys : Identity) (rEcdhPub : EcPubKey) (rRsaPub : Nat) (plaintext : Buf)
    (aesKey : SymKey) (iv salt : List Nat) :
    (sendMessageCore userId recipientId keys rEcdhPub rRsaPub plaintext aesKey iv salt).hash_hex =
      Hex.sha256 ((sendMessageCore userId recipientId keys rEcdhPub rRsaPub plaintext aesKey iv salt).ciphertext_base64) ∧
    (sendMessageCore userId recipientId keys rEcdhPub rRsaPub plaintext aesKey iv salt).hash_hex =
      Hex.sha256 (B64.enc (aesGcmEncrypt aesKey iv plaintext)) ∧
    verifyHashAnalytics (sendMessageCore userId recipientId keys rEcdhPub rRsaPub plaintext aesKey iv salt) = true ∧
    (sendMessageCore userId recipientId keys rEcdhPub rRsaPub plaintext aesKey iv salt).hash_hex ≠
      Hex.sha256 (B64.enc plaintext) := by
  refine ⟨rfl, rfl, ?_, ?_⟩
  · simp [verifyHashAnalytics, sendMessageCore]
  · intro h
    simp only [sendMessageCore, Hex.sha256.injEq, B64.enc.injEq] at h
    exact aesCt_ne_inner aesKey iv plaintext h

/-- C3: algorithm selection policy — the seal core first attempts the ECDH
agreement wrap: if it succeeds the envelope carries that wrapped key and
the tag "ECDH"; if it fails the key is wrapped with RSA-OAEP and the tag
is "RSA-OAEP".  The receiver selects the unwrap path solely from the tag:
a non-"ECDH" tag is dispatched to the RSA unwrap unconditionally, and an
"ECDH"-tagged envelope whose agreement unwrap fails makes `decryptMessage`
fail without ever attempting the RSA path. -/
theorem wrap_algorithm_selection_policy :
    (∀ (userId recipientId : Nat) (keys : Identity) (rEcdhPub : EcPubKey)
       (rRsaPub : Nat) (pt : Buf) (aesKey : SymKey) (iv salt : List Nat) (w : Buf),
       wrapAesKeyWithECDH aesKey keys.ecdhPriv rEcdhPub salt = some w →
       (sendMessageCore userId recipientId keys rEcdhPub rRsaPub pt aesKey iv salt).wrap_alg = "ECDH" ∧
       (sendMessageCore userId recipientId keys rEcdhPub rRsaPub pt aesKey iv salt).wrapped_key_base64 = B64.enc w) ∧
    (∀ (userId recipientId : Nat) (keys : Identity) (rEcdhPub : EcPubKey)
       (rRsaPub : Nat) (pt : Buf) (aesKey : SymKey) (iv salt : List Nat),
       wrapAesKeyWithECDH aesKey keys.ecdhPriv rEcdhPub salt = none →
       (sendMessageCore userId recipientId keys rEcdhPub rRsaPub pt aesKey iv salt).wrap_alg = "RSA-OAEP" ∧
       (sendMessageCore userId recipientId keys rEcdhPub rRsaPub pt aesKey iv salt).wrapped_key_base64 =
         B64.enc (wrapAesKeyWithRSA aesKey rRsaPub)) ∧
    (∀ (userId recipientId : Nat) (keys : Identity) (recipient : RecipientKeys)
       (db : Nat → Option EcPubKey) (msg : MessageRow),
       msg.wrap_alg ≠ "ECDH" →
       decryptMessage userId recipientId keys recipient db msg =
         (unwrapAesKeyWithRSA (b64decode msg.wrapped_key_base64) keys.rsaPriv).bind
           (fun k => aesGcmDecrypt k (asBytes (b64decode msg.iv_base64))
             (b64decode msg.ciphertext_base64))) ∧
    (∀ (userId recipientId : Nat) (keys : Identity) (recipient : RecipientKeys)
       (db : Nat → Option EcPubKey) (msg : MessageRow),
       msg.wrap_alg = "ECDH" → msg.sender_id ≠ userId → msg.sender_id = recipientId →
       unwrapAesKeyWithECDH (b64decode msg.wrapped_key_base64) keys.ecdhPriv
         recipient.ecdhPub (asBytes (b64decode msg.salt_base64)) = none →
       decryptMessage userId recipientId keys recipient db msg = none) := by
  refine ⟨?_, ?_, ?_, ?_⟩
  · intro userId recipientId keys rEcdhPub rRsaPub pt aesKey iv salt w hw
    simp [sendMessageCore, hw]
  · intro userId recipientId keys rEcdhPub rRsaPub pt aesKey iv salt hw
    simp [sendMessageCore, hw]
  · intro userId recipientId keys recipient db msg htag
    simp [decryptMessage, htag]
  · intro userId recipientId keys recipient db msg htag hsend hrecip hfail
    simp [decryptMessage, htag, hsend, hrecip, hfail]

theorem wrap_algorithm_selection_policy_witness :
    ((sendMessageCore 1 2 ⟨10, 11⟩ (.valid 20) 21 (.bytes [7]) (.fresh 0)
        (List.replicate 12 0) (List.replicate 16 0)).wrap_alg = "ECDH" ∧
     (sendMessageCore 1 2 ⟨10, 11⟩ (.valid 20) 21 (.bytes [7]) (.fresh 0)
        (List.replicate 12 0) (List.replicate 16 0)).wrapped_key_base64 =
       B64.enc (aesGcmEncrypt
         (SymKey.hkdf (ecdhSharedSecret 10 20) (List.replicate 16 0) "wrap")
         ((List.replicate 16 0).take 12) (.keyBytes (.fresh 0)))) ∧
    ((sendMessageCore 1 2 ⟨10, 11⟩ (.malformed 20) 21 (.bytes [7]) (.fresh 0)
        (List.replicate 12 0) (List.replicate 16 0)).wrap_alg = "RSA-OAEP" ∧
     (sendMessageCore 1 2 ⟨10, 11⟩ (.malformed 20) 21 (.bytes [7]) (.fresh 0)
        (List.replicate 12 0) (List.replicate 16 0)).wrapped_key_base64 =
       B64.enc (wrapAesKeyWithRSA (.fresh 0) 21)) ∧
    decryptMessage 2 1 ⟨20, 21⟩ ⟨.valid 10, 11⟩ (fun _ => none)
      { sender_id := 1
        recipient_id := 2
        ciphertext_base64 := B64.enc (aesGcmEncrypt (.fresh 0) [0] (.bytes [7]))
        iv_base64 := B64.enc (.bytes [0])
        wrapped_key_base64 := B64.enc (wrapAesKeyWithRSA (.fresh 0) 21)
        wrap_alg := "RSA-OAEP"
        salt_base64 := B64.enc (.bytes [1])
        hash_hex := Hex.sha256 (B64.enc (.bytes [0])) } =
      (unwrapAesKeyWithRSA (b64decode (B64.enc (wrapAesKeyWithRSA (.fresh 0) 21))) 21).bind
        (fun k => aesGcmDecrypt k (asBytes (b64decode (B64.enc (.bytes [0]))))
          (b64decode (B64.enc (aesGcmEncrypt (.fresh 0) [0] (.bytes [7]))))) ∧
    decryptMessage 2 1 ⟨20, 21⟩ ⟨.malformed 9, 21⟩ (fun _ => none)
      { sender_id := 1
        recipient_id := 2
        ciphertext_base64 := B64.enc (aesGcmEncrypt (.fresh 0) [0] (.bytes [7]))
        iv_base64 := B64.enc (.bytes [0])
        wrapped_key_base64 := B64.enc (wrapAesKeyWithRSA (.fresh 0) 21)
        wrap_alg := "ECDH"
        salt_base64 := B64.enc (.bytes [1])
        hash_hex := Hex.sha256 (B64.enc (.bytes [0])) } = none :=
  ⟨wrap_algorithm_selection_policy.1 1 2 ⟨10, 11⟩ (.valid 20) 21 (.bytes [7]) (.fresh 0)
      (List.replicate 12 0) (List.replicate 16 0) _ rfl,
   wrap_algorithm_selection_policy.2.1 1 2 ⟨10, 11⟩ (.malformed 20) 21 (.bytes [7]) (.fresh 0)
      (List.replicate 12 0) (List.replicate 16 0) rfl,
   wrap_algorithm_selection_policy.2.2.1 2 1 ⟨20, 21⟩ ⟨.valid 10, 11⟩ (fun _ => none)
      { sender_id := 1
        recipient_id := 2
        ciphertext_base64 := B64.enc (aesGcmEncrypt (.fresh 0) [0] (.bytes [7]))
        iv_base64 := B64.enc (.bytes [0])
        wrapped_key_base64 := B64.enc (wrapAesKeyWithRSA (.fresh 0) 21)
        wrap_alg := "RSA-OAEP"
        salt_base64 := B64.enc (.bytes [1])
        hash_hex := Hex.sha256 (B64.enc (.bytes [0])) } (by decide),
   wrap_algorithm_selection_policy.2.2.2 2 1 ⟨20, 21⟩ ⟨.malformed 9, 21⟩ (fun _ => none)
      { sender_id := 1
        recipient_id := 2
        ciphertext_base64 := B64.enc (aesGcmEncrypt (.fresh 0) [0] (.bytes [7]))
        iv_base64 := B64.enc (.bytes [0])
        wrapped_key_base64 := B64.enc (wrapAesKeyWithRSA (.fresh 0) 21)
        wrap_alg := "ECDH"
        salt_base64 := B64.enc (.bytes [1])
        hash_hex := Hex.sha256 (B64.enc (.bytes [0])) } rfl (by decide) rfl rfl⟩

/-- C6 (counterexample): an envelope carrying the unknown third tag value
"FOO" is not rejected as a decode error by `decryptMessage`; it is
silently dispatched to the RSA-OAEP unwrap branch and, with a matching
RSA-wrapped key, decrypts successfully. -/
theorem third_tag_counterexample :
    decryptMessage 2 1 ⟨20, 21⟩ ⟨.valid 10, 11⟩ (fun _ => none)
      { sender_id := 1
        recipient_id := 2
        ciphertext_base64 := B64.enc (aesGcmEncrypt (.fresh 0) [0] (.bytes [7]))
        iv_base64 := B64.enc (.bytes [0])
        wrapped_key_base64 := B64.enc (wrapAesKeyWithRSA (.fresh 0) 21)
        wrap_alg := "FOO"
        salt_base64 := B64.enc (.bytes [1])
        hash_hex := Hex.sha256 (B64.enc (.bytes [0])) } = some (.bytes [7]) := by
  rfl

/-- C6 (amended): the receiver's dispatch recognises exactly two tag
values but not exhaustively — "ECDH" selects the agreement unwrap, while
every other tag value, including any unknown third value, is silently
treated as the RSA-OAEP variant; no decode error is raised for an unknown
tag. -/
theorem third_tag_silently_rsa (userId recipientId : Nat) (keys : Identity)
    (recipient : RecipientKeys) (db : Nat → Option EcPubKey) (msg : MessageRow)
    (htag : msg.wrap_alg ≠ "ECDH") :
    decryptMessage userId recipientId keys recipient db msg =
      (unwrapAesKeyWithRSA (b64decode msg.wrapped_key_base64) keys.rsaPriv).bind
        (fun k => aesGcmDecrypt k (asBytes (b64decode msg.iv_base64))
          (b64decode msg.ciphertext_base64)) := by
  simp [decryptMessage, htag]

theorem third_tag_silently_rsa_witness :
    decryptMessage 2 1 ⟨20, 21⟩ ⟨.valid 10, 11⟩ (fun _ => none)
      { sender_id := 1
        recipient_id := 2
        ciphertext_base64 := B64.enc (aesGcmEncrypt (.fresh 3) [5] (.bytes [8]))
        iv_base64 := B64.enc (.bytes [5])
        wrapped_key_base64 := B64.enc (wrapAesKeyWithRSA (.fresh 3) 21)
        wrap_alg := "UNKNOWN-ALG"
        salt_base64 := B64.enc (.bytes [1])
        hash_hex := Hex.sha256 (B64.enc (.bytes [0])) } =
      (unwrapAesKeyWithRSA (B64.enc (wrapAesKeyWithRSA (.fresh 3) 21) |> b64decode) 21).bind
        (fun k => aesGcmDecrypt k [5] (Buf.aesCt (.fresh 3) [5] (.bytes [8]))) :=
  third_tag_silently_rsa 2 1 ⟨20, 21⟩ ⟨.valid 10, 11⟩ (fun _ => none) _ (by decide)

/-- C7: backup round-trip — for every private-key bundle and passphrase,
unsealing the sealed backup with the same passphrase returns exactly the
original bundle; the sealing key is derived by PBKDF2-HMAC-SHA256 with a
16-byte salt and the iteration count 200000 (≥ 200,000), fixed in the one
`deriveKeyFromPassphrase` used identically by seal and unseal; and the
salt the unseal re-derives from is stored in the backup. -/
theorem backup_seal_unseal_roundtrip (e r : Nat) (passphrase : String)
    (salt iv : List Nat) (_hsalt : salt.length = 16) (_hiv : iv.length = 12) :
    importKeysSealed (exportKeysSealed e r passphrase salt iv) passphrase =
      .ok ⟨e, r⟩ ∧
    deriveKeyFromPassphrase passphrase salt = SymKey.pbkdf2 passphrase salt 200000 ∧
    (exportKeysSealed e r passphrase salt iv).salt = B64.enc (.bytes salt) := by
  refine ⟨?_, rfl, rfl⟩
  simp [importKeysSealed, exportKeysSealed, deriveKeyFromPassphrase,
    aesGcmEncrypt, aesGcmDecrypt, b64decode, asBytes]

theorem backup_seal_unseal_roundtrip_witness :
    importKeysSealed
      (exportKeysSealed 5 6 "correct-pass" (List.replicate 16 0) (List.replicate 12 0))
      "correct-pass" = .ok ⟨5, 6⟩ :=
  (backup_seal_unseal_roundtrip 5 6 "correct-pass" (List.replicate 16 0)
    (List.replicate 12 0) (by decide) (by decide)).1

/-- C8: for every sealed backup opened with a passphrase other than the one
that sealed it, and for every corrupted sealed backup (one whose stored
ciphertext is not an AES-GCM encryption under the key derived from the
supplied passphrase and the stored salt and IV), `importKeysSealed` fails
with the single opaque `BackupError` and never returns a value; the error
type has exactly one value, so a wrong passphrase is never distinguishable
from corrupted ciphertext. -/
theorem backup_unseal_opaque_failure :
    (∀ (e r : Nat) (p p' : String) (salt iv : List Nat), p' ≠ p →
       importKeysSealed (exportKeysSealed e r p salt iv) p' =
         .error .backupRestoreError) ∧
    (∀ (sealed : SealedBackup) (p : String),
       (∀ pt, b64decode sealed.ciphertext ≠
          Buf.aesCt (deriveKeyFromPassphrase p (asBytes (b64decode sealed.salt)))
            (asBytes (b64decode sealed.iv)) pt) →
       importKeysSealed sealed p = .error .backupRestoreError) ∧
    (∀ e e' : BackupError, e = e') := by
  refine ⟨?_, ?_, ?_⟩
  · intro e r p p' salt iv hne
    have hne' : ¬ (p = p') := fun h => hne h.symm
    simp [importKeysSealed, exportKeysSealed, deriveKeyFromPassphrase,
      aesGcmEncrypt, aesGcmDecrypt, b64decode, asBytes, hne']
  · intro sealed p h
    have hd := aesGcmDecrypt_eq_none _ _ _ h
    simp [importKeysSealed, hd]
  · intro e e'
    cases e
    cases e'
    rfl

theorem backup_unseal_opaque_failure_witness :
    importKeysSealed
      (exportKeysSealed 5 6 "correct-pass" (List.replicate 16 0) (List.replicate 12 0))
      "wrong-pass" = .error .backupRestoreError ∧
    importKeysSealed ⟨B64.enc (.bytes [1]), B64.enc (.bytes [2]), B64.enc (.bytes [3])⟩
      "correct-pass" = .error .backupRestoreError :=
  ⟨backup_unseal_opaque_failure.1 5 6 "correct-pass" "wrong-pass"
      (List.replicate 16 0) (List.replicate 12 0) (by decide),
   backup_unseal_opaque_failure.2.1
      ⟨B64.enc (.bytes [1]), B64.enc (.bytes [2]), B64.enc (.bytes [3])⟩
      "correct-pass" (fun pt h => Buf.noConfusion h)⟩

/-- C9 (counterexample): a ciphertext buffer of 4 MiB = 4194304 bytes is
below the claimed 5 MiB buffer threshold, yet when the upload fails (and
no retry rescues it) `sendMessage` does not inline it — its Base64
encoding is 5592408 characters, at or above the 5 * 1024 * 1024 cut-off
the code actually applies to the encoded string, so the send fails. -/
theorem inline_threshold_counterexample :
    4194304 < 5 * 1024 * 1024 ∧
    (arrayBufferToBase64 (List.replicate 4194304 0)).length = 5592408 ∧
    resolveFileStorage true false false false false
      ((arrayBufferToBase64 (List.replicate 4194304 0)).length) =
      .error .fileUploadFailed := by
  have hl : (arrayBufferToBase64 (List.replicate 4194304 (0 : Nat))).length = 5592408 := by
    rw [arrayBufferToBase64_length, List.length_replicate]
  refine ⟨by norm_num, hl, ?_⟩
  rw [hl]
  rfl

/-- C9 (amended): when the upload of the encrypted file payload fails and
no bucket-creation retry rescues it, `sendMessage` inlines the payload
exactly when the Base64 encoding of the ciphertext is shorter than
5 * 1024 * 1024 characters — equivalently, the raw ciphertext buffer is at
most 3932157 bytes (≈ 3.75 MiB), not 5 MiB; for longer ciphertexts the
send fails (or is stored externally if a retry succeeded). -/
theorem inline_threshold_on_base64_length (ct : List Nat)
    (bucketMissing createOk retryOk retryRls : Bool) :
    resolveFileStorage true bucketMissing createOk retryOk retryRls
        ((arrayBufferToBase64 ct).length) = .ok .inlineMeta ↔
      ct.length ≤ 3932157 := by
  rw [arrayBufferToBase64_length]
  rcases Nat.lt_or_ge ct.length 3932158 with h | h
  · have hc : 4 * ((ct.length + 2) / 3) < 5 * 1024 * 1024 := by omega
    simp [resolveFileStorage, hc]
    omega
  · have hc : ¬ (4 * ((ct.length + 2) / 3) < 5 * 1024 * 1024) := by omega
    have hno : resolveFileStorage true bucketMissing createOk retryOk retryRls
        (4 * ((ct.length + 2) / 3)) ≠ .ok .inlineMeta := by
      simp only [resolveFileStorage, Bool.not_true, Bool.false_eq_true, if_false,
        if_neg hc]
      split
      · simp
      · split <;> simp
    constructor
    · intro hcontra
      exact absurd hcontra hno
    · intro hlen
      exact absurd hlen (by omega)
